import Mathlib

/-!
# Verification of the ToDo backend's auth and teams core

Shallow embedding of the authentication (verification codes, JWT session
tokens) and team access-control services of the ToDo repository:

* `src/Todo/auth/services.py` — `CodeService.create_verification_code`,
  `CodeService.verify_code`, `cleanup_expired_data`;
* `src/Todo/auth/security.py` — `create_jwt_token`;
* `src/dependencies.py` — `get_current_user`;
* `src/Todo/teams/services.py` — `TeamService` and `TeamTaskService`;
* `src/database.py` — the SQLAlchemy models and the `transaction` helper;
* `src/config.py` — `AuthConfig` constants.

The SQLAlchemy session is modelled by explicit state passing over lists of
records (insertion order = row order, `.first()` = `List.find?`).  A key
point of faithfulness: SQLAlchemy renders `Column == None` as `IS NULL`, and
`NULL == v` as false, so the code-lookup filter
`(phone_number == phone) | (email == email)` is embedded by `colMatch`
below with exactly those semantics.  Operations wrapped in the source's
`transaction` context manager roll back on error, which the embedding
models by returning `Except`: an error result carries no new state.
Endpoints that `commit` before raising (only `verify_code` does) instead
return the new state together with the outcome.
-/

deriving instance DecidableEq for Except

namespace ToDo

/-! ## Configuration constants (src/config.py, class AuthConfig) -/

def code_expiry : Nat := 300

def token_expiry : Nat := 24 * 60 * 60

def max_attempts : Nat := 3

def request_cooldown : Nat := 60

def secret_key : String := "super-secret-jwt-key-2024-with-many-characters-and-symbols-@#$%^&*"

/-! ## Verification codes (src/database.py VerificationCode,
    src/Todo/auth/services.py CodeService) -/

/-- A row of the `verification_codes` table.  Timestamps are seconds
(`datetime.utcnow()` mapped to `Nat`); `id` stands for the uuid primary
key. -/
structure VCode where
  id : Nat
  phone : Option String
  email : Option String
  code : String
  attempts : Nat
  created_at : Nat
  expires_at : Nat
deriving DecidableEq, Repr

/-- SQL semantics of `Column == value` when `value` may be Python `None`:
SQLAlchemy renders `== None` as `IS NULL`, and a comparison of a NULL
column with a string is false. -/
def colMatch (col v : Option String) : Bool :=
  match v with
  | none => col.isNone
  | some s => col == some s

/-- The filter used by both `create_verification_code` and `verify_code`:
`(VerificationCode.phone_number == phone) | (VerificationCode.email == email),
VerificationCode.expires_at > datetime.utcnow()`. -/
def liveMatch (phone email : Option String) (now : Nat) (r : VCode) : Bool :=
  (colMatch r.phone phone || colMatch r.email email) && decide (now < r.expires_at)

/-- Outcome of `CodeService.create_verification_code`. -/
inductive ReqResult where
  /-- HTTP 429 "Please wait before requesting new code". -/
  | rateLimited
  /-- The code that was stored (and handed to the notifier). -/
  | sent (code : String)
deriving DecidableEq, Repr

/-- `CodeService.create_verification_code` (src/Todo/auth/services.py
lines 82–112).  The freshly generated 6-digit code and the new row's id are
passed in as oracles for `generate_code` and uuid generation.  When the
lookup finds a live row and the cooldown has not elapsed, the service
raises before any commit, so the state is returned unchanged. -/
def create_verification_code (db : List VCode) (phone email : Option String)
    (now : Nat) (newCode : String) (newId : Nat) : List VCode × ReqResult :=
  let fresh : VCode :=
    { id := newId, phone := phone, email := email, code := newCode,
      attempts := 0, created_at := now, expires_at := now + code_expiry }
  match db.find? (liveMatch phone email now) with
  | some ec =>
      if now - ec.created_at < request_cooldown then
        (db, .rateLimited)
      else
        ((db.filter (fun r => r.id != ec.id)).concat fresh, .sent newCode)
  | none => (db.concat fresh, .sent newCode)

/-- Outcome of `CodeService.verify_code`. -/
inductive VerifyResult where
  /-- HTTP 400 "Code not requested or expired" — one combined error for
  both the no-code case and the expired-code case. -/
  | notFoundOrExpired
  /-- HTTP 400 "Too many attempts, request new code". -/
  | tooManyAttempts
  /-- HTTP 400 "Invalid code. {remaining} attempts remaining". -/
  | invalidCode (remaining : Nat)
  /-- Verification succeeded. -/
  | ok
deriving DecidableEq, Repr

/-- `CodeService.verify_code` (src/Todo/auth/services.py lines 114–140).
The attempt increment and the deletions are committed before the
exception is raised, so the new state is returned alongside the
outcome. -/
def verify_code (db : List VCode) (phone email : Option String)
    (submitted : String) (now : Nat) : List VCode × VerifyResult :=
  match db.find? (liveMatch phone email now) with
  | none => (db, .notFoundOrExpired)
  | some vc =>
      if vc.code = submitted then
        (db.filter (fun r => r.id != vc.id), .ok)
      else
        let vc' : VCode := { vc with attempts := vc.attempts + 1 }
        let db' := db.map (fun r => if r.id = vc.id then vc' else r)
        if max_attempts ≤ vc'.attempts then
          (db'.filter (fun r => r.id != vc.id), .tooManyAttempts)
        else
          (db', .invalidCode (max_attempts - vc'.attempts))

/-- `cleanup_expired_data` (src/Todo/auth/services.py lines 331–341):
deletes exactly the rows with `expires_at <= now`. -/
def cleanup_expired_data (db : List VCode) (now : Nat) : List VCode :=
  db.filter (fun r => decide (now < r.expires_at))

/-! ## JWT session tokens (src/Todo/auth/security.py, src/dependencies.py) -/

/-- The claims `create_jwt_token` puts in the payload (the `"type"` claim
is the constant `"access"` and is never read back). -/
structure JwtPayload where
  user_id : String
  iat : Nat
  exp : Nat
deriving DecidableEq, Repr

/-- A bearer token as seen by `get_current_user`: either a well-formed JWT
(whose signature is abstracted by the key it was signed with — `jwt.decode`
succeeds exactly when that key equals the verifier's secret), or a string
that does not decode at all (this also covers the `len(token) < 10`
fast-path, since no signed JWT is under 10 characters). -/
inductive BearerToken where
  | jwt (payload : JwtPayload) (key : String)
  | malformed
deriving DecidableEq, Repr

/-- `create_jwt_token` (src/Todo/auth/security.py lines 85–93): payload
`{user_id, iat := now, exp := now + token_expiry}` signed with
`auth_config.secret_key`. -/
def create_jwt_token (now : Nat) (user_id : String) : BearerToken :=
  .jwt { user_id := user_id, iat := now, exp := now + token_expiry } secret_key

/-- A row of the `users` table (src/database.py, class User). -/
structure UserRec where
  id : String
  phone_number : Option String
  email : Option String
  username : String
deriving DecidableEq, Repr

/-- The 401 variants raised by `get_current_user` (src/dependencies.py). -/
inductive AuthError where
  /-- "Invalid token format" (empty or shorter than 10 characters). -/
  | invalidTokenFormat
  /-- "Invalid token: ..." (`jwt.InvalidTokenError`, e.g. bad signature). -/
  | invalidToken
  /-- "Token expired" (`jwt.ExpiredSignatureError`). -/
  | tokenExpired
  /-- "Invalid token payload" (missing/falsy `user_id` claim). -/
  | invalidTokenPayload
  /-- "User not found". -/
  | userNotFound
deriving DecidableEq, Repr

/-- `get_current_user` (src/dependencies.py lines 17–76).  `jwt.decode`
checks the signature first, then the `exp` claim; then the handler checks
the `user_id` claim for truthiness and finally re-checks that the user
still exists in the database. -/
def get_current_user (token : BearerToken) (users : List UserRec) (now : Nat) :
    Except AuthError String :=
  match token with
  | .malformed => .error .invalidTokenFormat
  | .jwt p key =>
      if key ≠ secret_key then .error .invalidToken
      else if p.exp ≤ now then .error .tokenExpired
      else if p.user_id = "" then .error .invalidTokenPayload
      else
        match users.find? (fun u => u.id == p.user_id) with
        | none => .error .userNotFound
        | some _ => .ok p.user_id

/-! ## Teams (src/database.py models, src/Todo/teams/services.py) -/

/-- `TeamRole` (src/Todo/teams/models.py). -/
inductive TeamRole where
  | owner
  | co_owner
  | member
deriving DecidableEq, Repr, BEq

/-- A row of the `teams` table. -/
structure TeamRec where
  id : String
  name : String
  description : Option String
  owner_id : String
deriving DecidableEq, Repr

/-- A row of the `team_members` table; `id` stands for the uuid primary
key (the pair `(team_id, user_id)` is unique by constraint). -/
structure TeamMemberRec where
  id : Nat
  team_id : String
  user_id : String
  role : TeamRole
deriving DecidableEq, Repr

/-- A row of the `team_tasks` table.  Note that it stores no completion
flag: the "fully completed" aggregate is never materialised. -/
structure TeamTaskRec where
  id : String
  title : String
  description : Option String
  team_id : String
  created_by : String
deriving DecidableEq, Repr

/-- A row of the `team_task_completions` table; `id` stands for the uuid
primary key (the pair `(task_id, user_id)` is unique by constraint). -/
structure TeamTaskCompletionRec where
  id : Nat
  task_id : String
  user_id : String
deriving DecidableEq, Repr

/-- The relational state the team services act on.  Lists keep insertion
order; `.first()` is `List.find?`. -/
structure TeamsDB where
  users : List UserRec
  teams : List TeamRec
  members : List TeamMemberRec
  tasks : List TeamTaskRec
  completions : List TeamTaskCompletionRec
deriving DecidableEq, Repr

/-- The HTTPException variants raised by the team services. -/
inductive ApiError where
  /-- 404 "Team not found". -/
  | teamNotFound
  /-- 403 "Access denied". -/
  | accessDenied
  /-- 400 "Team with this name already exists". -/
  | duplicateTeamName
  /-- 403 "Only team owner can delete the team". -/
  | onlyOwnerCanDelete
  /-- 403 "Only owners and co-owners can invite users". -/
  | onlyOwnersCanInvite
  /-- 403 "Only team owner can change roles". -/
  | onlyOwnerCanChangeRoles
  /-- 404 "Team member not found". -/
  | memberNotFound
  /-- 400 "Cannot remove yourself from team". -/
  | cannotRemoveYourself
  /-- 400 "Owner cannot remove themselves". -/
  | ownerCannotRemoveThemselves
  /-- 403 "Co-owners can only remove regular members". -/
  | coOwnersRemoveOnlyRegular
  /-- 403 "Regular members cannot remove other members". -/
  | regularMembersCannotRemove
  /-- 404 "User not found". -/
  | userNotFound
  /-- 400 "User is already a team member". -/
  | alreadyMember
  /-- 404 "Team task not found". -/
  | taskNotFound
  /-- A branch the Python would reach only by crashing (e.g. dereferencing
  a missing row after an earlier check guaranteed it); kept for totality,
  unreachable under the theorems' hypotheses. -/
  | internalError
deriving DecidableEq, Repr

/-- `TeamService.get_team` (src/Todo/teams/services.py lines 47–61):
404 if the team does not exist, 403 if the requester has no membership
row for it. -/
def get_team (db : TeamsDB) (team_id user_id : String) : Except ApiError TeamRec :=
  match db.teams.find? (fun t => t.id == team_id) with
  | none => .error .teamNotFound
  | some team =>
      match db.members.find? (fun m => m.team_id == team_id && m.user_id == user_id) with
      | none => .error .accessDenied
      | some _ => .ok team

/-- `TeamService.create_team` (lines 14–39), run under `transaction`:
duplicate-name check, then the team row and the creator's owner-role
membership row are inserted in the same transaction (ids passed in as
oracles for the uuid defaults).  An error means rollback: no new state. -/
def create_team (db : TeamsDB) (user_id name : String) (description : Option String)
    (newTeamId : String) (newMemberId : Nat) : Except ApiError (TeamsDB × TeamRec) :=
  match db.teams.find? (fun t => t.name == name) with
  | some _ => .error .duplicateTeamName
  | none =>
      let team : TeamRec :=
        { id := newTeamId, name := name, description := description, owner_id := user_id }
      let tm : TeamMemberRec :=
        { id := newMemberId, team_id := newTeamId, user_id := user_id, role := .owner }
      .ok ({ db with teams := db.teams.concat team, members := db.members.concat tm }, team)

/-- `TeamService.delete_team` (lines 92–106).  Role must be exactly
`owner`.  The body only runs `db_transaction.delete(team)`: no cascade is
configured on the models (src/database.py declares no relationship from
`Team` to its members/tasks and no `ondelete`), and SQLite runs with
foreign-key enforcement off, so only the team row itself disappears. -/
def delete_team (db : TeamsDB) (team_id user_id : String) : Except ApiError TeamsDB :=
  match get_team db team_id user_id with
  | .error e => .error e
  | .ok _ =>
      match db.members.find? (fun m => m.team_id == team_id && m.user_id == user_id) with
      | none => .error .internalError
      | some membership =>
          if membership.role ≠ TeamRole.owner then .error .onlyOwnerCanDelete
          else .ok { db with teams := db.teams.filter (fun t => t.id != team_id) }

/-- `TeamService.invite_user` (lines 108–148): inviter must be owner or
co-owner; target user must exist and not already be a member; inserts a
`member`-role row. -/
def invite_user (db : TeamsDB) (team_id inviter_id target_user_id : String)
    (newMemberId : Nat) : Except ApiError TeamsDB :=
  match get_team db team_id inviter_id with
  | .error e => .error e
  | .ok _ =>
      match db.members.find? (fun m => m.team_id == team_id && m.user_id == inviter_id) with
      | none => .error .internalError
      | some membership =>
          if membership.role ≠ TeamRole.owner ∧ membership.role ≠ TeamRole.co_owner then
            .error .onlyOwnersCanInvite
          else
            match db.users.find? (fun u => u.id == target_user_id) with
            | none => .error .userNotFound
            | some _ =>
                match db.members.find?
                    (fun m => m.team_id == team_id && m.user_id == target_user_id) with
                | some _ => .error .alreadyMember
                | none =>
                    .ok { db with
                      members := db.members.concat
                        { id := newMemberId, team_id := team_id,
                          user_id := target_user_id, role := .member } }

/-- `TeamService.update_member_role` (lines 150–181): caller's role must
be exactly `owner`; the target membership row's role is then overwritten
with `new_role` unconditionally (no check on the new role, on the target's
current role, or against `member_id = owner_id`).  The final user lookup
feeds the response message; were it to fail the transaction would roll
back, so it is modelled as a state-preserving error. -/
def update_member_role (db : TeamsDB) (team_id owner_id member_id : String)
    (new_role : TeamRole) : Except ApiError TeamsDB :=
  match get_team db team_id owner_id with
  | .error e => .error e
  | .ok _ =>
      match db.members.find? (fun m => m.team_id == team_id && m.user_id == owner_id) with
      | none => .error .internalError
      | some om =>
          if om.role ≠ TeamRole.owner then .error .onlyOwnerCanChangeRoles
          else
            match db.members.find? (fun m => m.team_id == team_id && m.user_id == member_id) with
            | none => .error .memberNotFound
            | some mm =>
                match db.users.find? (fun u => u.id == member_id) with
                | none => .error .internalError
                | some _ =>
                    .ok { db with
                      members := db.members.map
                        (fun m => if m.id = mm.id then { mm with role := new_role } else m) }

/-- `TeamService.remove_member` (lines 201–239).  Check order is the
source's: access, target-membership existence, self-removal, then the
role matrix.  On success only the target's membership row is deleted. -/
def remove_member (db : TeamsDB) (team_id remover_id member_id : String) :
    Except ApiError TeamsDB :=
  match get_team db team_id remover_id with
  | .error e => .error e
  | .ok _ =>
      match db.members.find? (fun m => m.team_id == team_id && m.user_id == remover_id) with
      | none => .error .internalError
      | some remover_membership =>
          match db.members.find? (fun m => m.team_id == team_id && m.user_id == member_id) with
          | none => .error .memberNotFound
          | some member_membership =>
              if remover_id = member_id then .error .cannotRemoveYourself
              else if remover_membership.role = TeamRole.owner then
                if member_membership.role = TeamRole.owner then
                  .error .ownerCannotRemoveThemselves
                else
                  .ok { db with
                    members := db.members.filter (fun m => m.id != member_membership.id) }
              else if remover_membership.role = TeamRole.co_owner then
                if member_membership.role = TeamRole.owner ∨
                    member_membership.role = TeamRole.co_owner then
                  .error .coOwnersRemoveOnlyRegular
                else
                  .ok { db with
                    members := db.members.filter (fun m => m.id != member_membership.id) }
              else .error .regularMembersCannotRemove

/-- `TeamService.get_team_members_count` (lines 241–243): count of the
team's membership rows. -/
def get_team_members_count (db : TeamsDB) (team_id : String) : Nat :=
  (db.members.filter (fun m => m.team_id == team_id)).length

/-- Count of completion rows stored for a task, as queried at
src/Todo/teams/services.py lines 347–349 (no join against users or
members: every stored row counts). -/
def completions_count (db : TeamsDB) (task_id : String) : Nat :=
  (db.completions.filter (fun c => c.task_id == task_id)).length

/-- The payload `TeamTaskService.toggle_task_completion` returns. -/
structure ToggleInfo where
  task_id : String
  user_id : String
  completed : Bool
  completions_count : Nat
  team_members_count : Nat
  is_fully_completed : Bool
deriving DecidableEq, Repr

/-- `TeamTaskService.toggle_task_completion` (lines 310–362): idempotent
insert/delete of the caller's completion row, then the aggregate is
recomputed from the live counts — `is_fully_completed` is
`len(completions) == team_members_count`, computed fresh on every call
and stored nowhere. -/
def toggle_task_completion (db : TeamsDB) (team_id task_id user_id : String)
    (completed : Bool) (newCompletionId : Nat) : Except ApiError (TeamsDB × ToggleInfo) :=
  match get_team db team_id user_id with
  | .error e => .error e
  | .ok _ =>
      match db.tasks.find? (fun t => t.id == task_id && t.team_id == team_id) with
      | none => .error .taskNotFound
      | some _ =>
          let db' : TeamsDB :=
            if completed then
              match db.completions.find?
                  (fun c => c.task_id == task_id && c.user_id == user_id) with
              | some _ => db
              | none =>
                  { db with
                    completions := db.completions.concat
                      { id := newCompletionId, task_id := task_id, user_id := user_id } }
            else
              match db.completions.find?
                  (fun c => c.task_id == task_id && c.user_id == user_id) with
              | some c =>
                  { db with completions := db.completions.filter (fun x => x.id != c.id) }
              | none => db
          let cc := completions_count db' task_id
          let mc := get_team_members_count db' team_id
          .ok (db',
            { task_id := task_id, user_id := user_id, completed := completed,
              completions_count := cc, team_members_count := mc,
              is_fully_completed := cc == mc })

/-! ## Concrete fixtures used by counterexamples, scenarios and witnesses -/

/-- A phone-channel verification code row with `attempts = a`, created at
time 0 and expiring at 300. -/
def c2_code (a : Nat) : VCode :=
  { id := 1, phone := some "79991112233", email := none, code := "123456",
    attempts := a, created_at := 0, expires_at := 300 }

/-- An expired phone-channel code row (expired at 300). -/
def c3_expired : VCode :=
  { id := 1, phone := some "79995554433", email := none, code := "123456",
    attempts := 0, created_at := 0, expires_at := 300 }

end ToDo

namespace ToDo

/-! ## C1 — cooldown / RateLimited -/

/-- C1 counterexample.  The claim says a live code belonging to a
*different* channel identifier never causes the `RateLimited` rejection.
Reachable refutation: request a code for phone 79990000001 at t=0, then
request one for the different phone 79990000002 at t=10.  The second
request is rejected with 429 even though no stored row is for 79990000002:
the lookup filter `(phone_number == phone) | (email == email)` has
`email = None` rendered as `email IS NULL`, which every phone-channel row
satisfies. -/
theorem C1_cross_identifier_rate_limited :
    (create_verification_code [] (some "79990000001") none 0 "111111" 1).snd =
      ReqResult.sent "111111"
    ∧ (create_verification_code
        (create_verification_code [] (some "79990000001") none 0 "111111" 1).fst
        (some "79990000002") none 10 "222222" 2).snd = ReqResult.rateLimited
    ∧ ∀ r ∈ (create_verification_code [] (some "79990000001") none 0 "111111" 1).fst,
        r.phone ≠ some "79990000002" := by
  decide

/-- C1 (amended): `requestCode` fails with `RateLimited` iff the *first*
live row matched by the disjunctive filter (same identifier, or NULL in
the other channel's column — so for a phone request, any live
phone-channel row regardless of its number) was created less than
`request_cooldown = 60` seconds ago; once the cooldown has elapsed, that
matched row is deleted and superseded by the newly stored code.  The last
conjunct isolates the correction: any live row with a NULL email column
matches a phone request, whatever its phone number. -/
theorem C1_rate_limited_iff_first_live_match_in_cooldown
    (db : List VCode) (phone email : Option String) (now : Nat)
    (newCode : String) (newId : Nat) :
    ((create_verification_code db phone email now newCode newId).snd =
        ReqResult.rateLimited ↔
      ∃ ec, db.find? (liveMatch phone email now) = some ec ∧
        now - ec.created_at < request_cooldown)
    ∧ (∀ ec, db.find? (liveMatch phone email now) = some ec →
        request_cooldown ≤ now - ec.created_at →
        (create_verification_code db phone email now newCode newId).fst =
          (db.filter (fun r => r.id != ec.id)).concat
            { id := newId, phone := phone, email := email, code := newCode,
              attempts := 0, created_at := now, expires_at := now + code_expiry })
    ∧ ∀ v : String, ∀ r : VCode, r.email = none → now < r.expires_at →
        liveMatch (some v) none now r = true := by
  refine ⟨?_, ?_, ?_⟩
  · unfold create_verification_code
    cases hf : db.find? (liveMatch phone email now) with
    | none =>
        dsimp only
        constructor
        · intro h
          exact ReqResult.noConfusion h
        · rintro ⟨ec, hec, -⟩
          exact Option.noConfusion hec
    | some ec =>
        dsimp only
        by_cases hc : now - ec.created_at < request_cooldown
        · rw [if_pos hc]
          exact ⟨fun _ => ⟨ec, rfl, hc⟩, fun _ => rfl⟩
        · rw [if_neg hc]
          constructor
          · intro h
            exact ReqResult.noConfusion h
          · rintro ⟨ec', hec', hlt⟩
            rw [Option.some.injEq] at hec'
            exact absurd (hec' ▸ hlt) hc
  · intro ec hec hge
    have hc : ¬ (now - ec.created_at < request_cooldown) := by omega
    unfold create_verification_code
    rw [hec]
    dsimp only
    rw [if_neg hc]
  · intro v r hemail hlive
    simp [liveMatch, colMatch, hemail, hlive]

/-- C1 witness: in a state holding one live code for phone 79990000001
created at t=0, a request at t=10 is `RateLimited` (cooldown part of the
iff), and a request at t=70 supersedes the old row. -/
theorem C1_witness :
    (create_verification_code [c2_code 0] (some "79991112233") none 10 "999999" 2).snd =
      ReqResult.rateLimited
    ∧ (create_verification_code [c2_code 0] (some "79991112233") none 70 "999999" 2).fst =
      [{ id := 2, phone := some "79991112233", email := none, code := "999999",
         attempts := 0, created_at := 70, expires_at := 370 }] := by
  constructor
  · exact (C1_rate_limited_iff_first_live_match_in_cooldown
      [c2_code 0] (some "79991112233") none 10 "999999" 2).1.mpr
      ⟨c2_code 0, by decide, by decide⟩
  · have h := (C1_rate_limited_iff_first_live_match_in_cooldown
      [c2_code 0] (some "79991112233") none 70 "999999" 2).2.1
      (c2_code 0) (by decide) (by decide)
    rw [h]
    decide

/-! ## C2 — wrong-code attempt limiting -/

/-- C2: on a mismatched code the found row's attempt counter is
incremented; if the incremented counter has reached
`max_attempts = 3` the row is deleted and the call fails with
`TooManyAttempts`, otherwise it fails with `InvalidCode` reporting
`3 - attempts` remaining.  The closing conjuncts run the claim's
scenario: three consecutive wrong attempts end in `TooManyAttempts` on
the third, after which `requestCode` for the channel succeeds because
the row was cleared. -/
theorem C2_wrong_code_increments_and_limits
    (db : List VCode) (phone email : Option String) (submitted : String)
    (now : Nat) (vc : VCode)
    (hf : db.find? (liveMatch phone email now) = some vc)
    (hne : vc.code ≠ submitted) :
    (verify_code db phone email submitted now =
      if max_attempts ≤ vc.attempts + 1 then
        ((db.map (fun r => if r.id = vc.id then { vc with attempts := vc.attempts + 1 }
            else r)).filter (fun r => r.id != vc.id), VerifyResult.tooManyAttempts)
      else
        (db.map (fun r => if r.id = vc.id then { vc with attempts := vc.attempts + 1 }
            else r), VerifyResult.invalidCode (max_attempts - (vc.attempts + 1))))
    ∧ verify_code [c2_code 0] (some "79991112233") none "000000" 10 =
        ([c2_code 1], VerifyResult.invalidCode 2)
    ∧ verify_code [c2_code 1] (some "79991112233") none "000000" 20 =
        ([c2_code 2], VerifyResult.invalidCode 1)
    ∧ verify_code [c2_code 2] (some "79991112233") none "000000" 30 =
        ([], VerifyResult.tooManyAttempts)
    ∧ (create_verification_code [] (some "79991112233") none 40 "654321" 2).snd =
        ReqResult.sent "654321" := by
  refine ⟨?_, by decide, by decide, by decide, by decide⟩
  unfold verify_code
  rw [hf]
  dsimp only
  rw [if_neg hne]

/-- C2 witness: the third wrong attempt on a row already carrying two
wrong attempts deletes the row and fails with `TooManyAttempts`. -/
theorem C2_witness :
    verify_code [c2_code 2] (some "79991112233") none "000000" 30 =
      ([], VerifyResult.tooManyAttempts) := by
  have h := (C2_wrong_code_increments_and_limits
    [c2_code 2] (some "79991112233") none "000000" 30 (c2_code 2)
    (by decide) (by decide)).1
  rw [h]
  decide

/-! ## C3 — expired codes -/

/-- C3 counterexample.  The claim says a `verifyCode` call on an expired
row fails with a *distinct* `Expired` error and deletes the row in that
same call.  In the code the lookup itself filters on
`expires_at > utcnow()`, so the expired row is simply not found: the call
returns the same combined "Code not requested or expired" failure as when
no code was ever requested, and the returned state still contains the
expired row untouched. -/
theorem C3_expired_row_not_deleted :
    verify_code [c3_expired] (some "79995554433") none "123456" 301 =
      ([c3_expired], VerifyResult.notFoundOrExpired)
    ∧ verify_code [] (some "79995554433") none "123456" 301 =
      ([], VerifyResult.notFoundOrExpired)
    ∧ c3_expired.expires_at ≤ 301 := by
  decide

/-- C3 (amended): when no live row matches (in particular when the
channel's row has expired), `verifyCode` fails with the combined
`notFoundOrExpired` error — the same error as the never-requested case,
not a distinct one — and leaves the state unchanged, so the expired row
is not deleted by that call; expired rows are deleted by the separate
`cleanup_expired_data` sweep, which drops every row past expiry. -/
theorem C3_expired_handled_by_cleanup_sweep
    (db : List VCode) (phone email : Option String) (submitted : String)
    (now : Nat) (r : VCode)
    (_hr : r ∈ db) (hexp : r.expires_at ≤ now)
    (hnone : db.find? (liveMatch phone email now) = none) :
    verify_code db phone email submitted now = (db, VerifyResult.notFoundOrExpired)
    ∧ r ∉ cleanup_expired_data db now := by
  constructor
  · unfold verify_code
    rw [hnone]
  · simp only [cleanup_expired_data, List.mem_filter]
    rintro ⟨-, hlt⟩
    simp at hlt
    omega

/-- C3 witness: the expired fixture row survives the failing `verifyCode`
call but is removed by `cleanup_expired_data`. -/
theorem C3_witness :
    verify_code [c3_expired] (some "79995554433") none "123456" 301 =
      ([c3_expired], VerifyResult.notFoundOrExpired)
    ∧ c3_expired ∉ cleanup_expired_data [c3_expired] 301 := by
  exact C3_expired_handled_by_cleanup_sweep [c3_expired] (some "79995554433") none
    "123456" 301 c3_expired (by decide) (by decide) (by decide)

/-! ## C4 — JWT issue / resolve round trip -/

/-- C4: a token issued by `create_jwt_token` for an existing user resolves
back to exactly that user id while `now < iat + 24h`; a signature-valid
but expired token fails with `tokenExpired`; a token signed with a
different key fails with `invalidToken` whatever its payload; and a
signature-valid, unexpired token whose user id is no longer in the
directory fails with `userNotFound`. -/
theorem C4_jwt_round_trip
    (users : List UserRec) (u : String) (t0 t1 : Nat) (hu : u ≠ "") :
    ((∃ ur, users.find? (fun x => x.id == u) = some ur) → t1 < t0 + token_expiry →
        get_current_user (create_jwt_token t0 u) users t1 = .ok u)
    ∧ (t0 + token_expiry ≤ t1 →
        get_current_user (create_jwt_token t0 u) users t1 = .error .tokenExpired)
    ∧ (∀ pl k, k ≠ secret_key →
        get_current_user (.jwt pl k) users t1 = .error .invalidToken)
    ∧ (users.find? (fun x => x.id == u) = none → t1 < t0 + token_expiry →
        get_current_user (create_jwt_token t0 u) users t1 = .error .userNotFound) := by
  refine ⟨?_, ?_, ?_, ?_⟩
  · rintro ⟨ur, hur⟩ hlt
    dsimp only [get_current_user, create_jwt_token]
    rw [if_neg (fun h => h rfl), if_neg (by omega), if_neg hu, hur]
  · intro hexp
    dsimp only [get_current_user, create_jwt_token]
    rw [if_neg (fun h => h rfl), if_pos hexp]
  · intro pl k hk
    dsimp only [get_current_user]
    rw [if_pos hk]
  · intro hnone hlt
    dsimp only [get_current_user, create_jwt_token]
    rw [if_neg (fun h => h rfl), if_neg (by omega), if_neg hu, hnone]

/-- Directory fixture for the token round trip. -/
def c4_users : List UserRec :=
  [{ id := "u1", phone_number := none, email := some "a@b.c", username := "alice" }]

/-- C4 witness: concrete round trip, expiry, bad signature, and
missing-user failures. -/
theorem C4_witness :
    get_current_user (create_jwt_token 0 "u1") c4_users 3600 = .ok "u1"
    ∧ get_current_user (create_jwt_token 0 "u1") c4_users 86400 =
        .error .tokenExpired
    ∧ get_current_user
        (.jwt { user_id := "u1", iat := 0, exp := 86400 } "wrong-key") c4_users 10 =
        .error .invalidToken
    ∧ get_current_user (create_jwt_token 0 "zz") c4_users 10 =
        .error .userNotFound := by
  refine ⟨?_, ?_, ?_, ?_⟩
  · exact (C4_jwt_round_trip c4_users "u1" 0 3600 (by decide)).1
      ⟨{ id := "u1", phone_number := none, email := some "a@b.c", username := "alice" },
        by decide⟩ (by decide)
  · exact (C4_jwt_round_trip c4_users "u1" 0 86400 (by decide)).2.1 (by decide)
  · exact (C4_jwt_round_trip c4_users "u1" 0 10 (by decide)).2.2.1
      { user_id := "u1", iat := 0, exp := 86400 } "wrong-key" (by decide)
  · exact (C4_jwt_round_trip c4_users "zz" 0 10 (by decide)).2.2.2
      (by decide) (by decide)

/-! ## C5 — createTeam: duplicate name or atomic two-row creation -/

/-- C5: `create_team` fails with `DuplicateName` exactly when some team
with that name already exists (names are globally unique); otherwise the
single transaction commits both the team row and the creator's owner-role
membership row in one step — the success state differs from the input
exactly by those two rows, and an error result carries no state at all
(rollback), so no partial creation is observable. -/
theorem C5_create_team_atomic
    (db : TeamsDB) (user_id name : String) (description : Option String)
    (newTeamId : String) (newMemberId : Nat) :
    (create_team db user_id name description newTeamId newMemberId =
        .error .duplicateTeamName ↔ ∃ t ∈ db.teams, t.name = name)
    ∧ ((¬ ∃ t ∈ db.teams, t.name = name) →
        create_team db user_id name description newTeamId newMemberId =
          .ok ({ db with
              teams := db.teams.concat
                { id := newTeamId, name := name, description := description,
                  owner_id := user_id },
              members := db.members.concat
                { id := newMemberId, team_id := newTeamId, user_id := user_id,
                  role := .owner } },
            { id := newTeamId, name := name, description := description,
              owner_id := user_id })) := by
  cases hf : db.teams.find? (fun t => t.name == name) with
  | some t =>
      have hmem : t ∈ db.teams := List.mem_of_find?_eq_some hf
      have hname : t.name = name := by simpa using List.find?_some hf
      constructor
      · constructor
        · intro _
          exact ⟨t, hmem, hname⟩
        · intro _
          unfold create_team
          rw [hf]
      · intro hno
        exact absurd ⟨t, hmem, hname⟩ hno
  | none =>
      have hall := List.find?_eq_none.mp hf
      constructor
      · constructor
        · intro h
          unfold create_team at h
          rw [hf] at h
          exact Except.noConfusion h
        · rintro ⟨t, ht, hname⟩
          exact absurd (by simpa using hname) (by simpa using hall t ht)
      · intro _
        unfold create_team
        rw [hf]

/-- The empty relational state. -/
def emptyDB : TeamsDB :=
  { users := [], teams := [], members := [], tasks := [], completions := [] }

/-- Team row produced by the C5 witness's first call. -/
def c5_team : TeamRec :=
  { id := "T", name := "alpha", description := none, owner_id := "A" }

/-- State after creating team "alpha" with owner "A". -/
def c5_db1 : TeamsDB :=
  { users := [], teams := [c5_team],
    members := [{ id := 1, team_id := "T", user_id := "A", role := .owner }],
    tasks := [], completions := [] }

/-- C5 witness: creating "alpha" in the empty store succeeds with both
rows; creating it again fails with the duplicate-name error. -/
theorem C5_witness :
    create_team emptyDB "A" "alpha" none "T" 1 = .ok (c5_db1, c5_team)
    ∧ create_team c5_db1 "B" "alpha" none "T2" 2 = .error .duplicateTeamName := by
  constructor
  · exact (C5_create_team_atomic emptyDB "A" "alpha" none "T" 1).2 (by decide)
  · exact (C5_create_team_atomic c5_db1 "B" "alpha" none "T2" 2).1.mpr
      ⟨c5_team, by decide, by decide⟩

/-! ## C6 — removeMember role matrix -/

/-- User rows "A" and "B" used by the team fixtures. -/
def uA : UserRec := { id := "A", phone_number := some "79990000001", email := none, username := "ua" }

/-- Second fixture user. -/
def uB : UserRec := { id := "B", phone_number := some "79990000002", email := none, username := "ub" }

/-- Third fixture user. -/
def uC : UserRec := { id := "C", phone_number := some "79990000003", email := none, username := "uc" }

/-- Fourth fixture user. -/
def uD : UserRec := { id := "D", phone_number := some "79990000004", email := none, username := "ud" }

/-- Team "T" with owner "A" and plain member "B". -/
def c6_db : TeamsDB :=
  { users := [uA, uB],
    teams := [{ id := "T", name := "gamma", description := none, owner_id := "A" }],
    members := [{ id := 1, team_id := "T", user_id := "A", role := .owner },
                { id := 2, team_id := "T", user_id := "B", role := .member }],
    tasks := [], completions := [] }

/-- `c6_db` after the owner "A" sets "B"'s role to `owner` as well. -/
def c6_db2 : TeamsDB :=
  { users := [uA, uB],
    teams := [{ id := "T", name := "gamma", description := none, owner_id := "A" }],
    members := [{ id := 1, team_id := "T", user_id := "A", role := .owner },
                { id := 2, team_id := "T", user_id := "B", role := .owner }],
    tasks := [], completions := [] }

/-- C6 counterexample.  The claim says that when the remover is the owner,
`removeMember` succeeds for *any* other member.  But `update_member_role`
lets the owner give a second member the `owner` role (no uniqueness
check), and `remove_member` then rejects removing that different member
with the 400 error "Owner cannot remove themselves", because the guard
tests the *target's* stored role rather than identity. -/
theorem C6_owner_cannot_remove_second_owner :
    update_member_role c6_db "T" "A" "B" TeamRole.owner = .ok c6_db2
    ∧ remove_member c6_db2 "T" "A" "B" = .error .ownerCannotRemoveThemselves
    ∧ "A" ≠ "B" := by
  decide

/-- C6 (amended): given the team exists, the remover is a member with
role `rr` and the target has a membership row with role `tr`:
self-removal always fails with `CannotRemoveSelf`; an owner-role remover
succeeds against any other member whose stored role is not `owner`, but
fails with the 400 "Owner cannot remove themselves" error when the
target's stored role is `owner` (even for a different member); a co-owner
succeeds only against a plain member and gets `Forbidden` against an
owner or co-owner; a plain member can remove no one. -/
theorem C6_remove_member_role_matrix
    (db : TeamsDB) (team_id remover_id member_id : String)
    (tm : TeamRec) (rm mm : TeamMemberRec)
    (hteam : db.teams.find? (fun t => t.id == team_id) = some tm)
    (hrem : db.members.find?
      (fun m => m.team_id == team_id && m.user_id == remover_id) = some rm)
    (htar : db.members.find?
      (fun m => m.team_id == team_id && m.user_id == member_id) = some mm) :
    (remover_id = member_id →
      remove_member db team_id remover_id member_id = .error .cannotRemoveYourself)
    ∧ (remover_id ≠ member_id → rm.role = TeamRole.owner → mm.role = TeamRole.owner →
      remove_member db team_id remover_id member_id = .error .ownerCannotRemoveThemselves)
    ∧ (remover_id ≠ member_id → rm.role = TeamRole.owner → mm.role ≠ TeamRole.owner →
      remove_member db team_id remover_id member_id =
        .ok { db with members := db.members.filter (fun m => m.id != mm.id) })
    ∧ (remover_id ≠ member_id → rm.role = TeamRole.co_owner →
        (mm.role = TeamRole.owner ∨ mm.role = TeamRole.co_owner) →
      remove_member db team_id remover_id member_id = .error .coOwnersRemoveOnlyRegular)
    ∧ (remover_id ≠ member_id → rm.role = TeamRole.co_owner → mm.role = TeamRole.member →
      remove_member db team_id remover_id member_id =
        .ok { db with members := db.members.filter (fun m => m.id != mm.id) })
    ∧ (remover_id ≠ member_id → rm.role = TeamRole.member →
      remove_member db team_id remover_id member_id =
        .error .regularMembersCannotRemove) := by
  have hred : remove_member db team_id remover_id member_id =
      (if remover_id = member_id then .error .cannotRemoveYourself
       else if rm.role = TeamRole.owner then
         if mm.role = TeamRole.owner then .error .ownerCannotRemoveThemselves
         else .ok { db with members := db.members.filter (fun m => m.id != mm.id) }
       else if rm.role = TeamRole.co_owner then
         if mm.role = TeamRole.owner ∨ mm.role = TeamRole.co_owner then
           .error .coOwnersRemoveOnlyRegular
         else .ok { db with members := db.members.filter (fun m => m.id != mm.id) }
       else .error .regularMembersCannotRemove) := by
    unfold remove_member get_team
    rw [hteam, hrem, htar]
  refine ⟨?_, ?_, ?_, ?_, ?_, ?_⟩
  · intro h1
    rw [hred, if_pos h1]
  · intro h1 h2 h3
    rw [hred, if_neg h1, if_pos h2, if_pos h3]
  · intro h1 h2 h3
    rw [hred, if_neg h1, if_pos h2, if_neg h3]
  · intro h1 h2 h3
    rw [hred, if_neg h1, if_neg (by simp [h2]), if_pos h2, if_pos h3]
  · intro h1 h2 h3
    rw [hred, if_neg h1, if_neg (by simp [h2]), if_pos h2,
      if_neg (by rw [h3]; decide)]
  · intro h1 h2
    rw [hred, if_neg h1, if_neg (by simp [h2]), if_neg (by simp [h2])]

/-- `c6_db` after the owner "A" successfully removes plain member "B". -/
def c6_afterAB : TeamsDB :=
  { users := [uA, uB],
    teams := [{ id := "T", name := "gamma", description := none, owner_id := "A" }],
    members := [{ id := 1, team_id := "T", user_id := "A", role := .owner }],
    tasks := [], completions := [] }

/-- C6 witness: on the owner/member fixture, self-removal by the owner is
`CannotRemoveSelf` and the owner removing the plain member succeeds,
deleting exactly the target's membership row. -/
theorem C6_witness :
    remove_member c6_db "T" "A" "A" = .error .cannotRemoveYourself
    ∧ remove_member c6_db "T" "A" "B" = .ok c6_afterAB := by
  constructor
  · exact (C6_remove_member_role_matrix c6_db "T" "A" "A"
      { id := "T", name := "gamma", description := none, owner_id := "A" }
      { id := 1, team_id := "T", user_id := "A", role := .owner }
      { id := 1, team_id := "T", user_id := "A", role := .owner }
      (by decide) (by decide) (by decide)).1 rfl
  · have h := (C6_remove_member_role_matrix c6_db "T" "A" "B"
      { id := "T", name := "gamma", description := none, owner_id := "A" }
      { id := 1, team_id := "T", user_id := "A", role := .owner }
      { id := 2, team_id := "T", user_id := "B", role := .member }
      (by decide) (by decide) (by decide)).2.2.1 (by decide) rfl (by decide)
    rw [h]
    decide

/-! ## C7 — deleteTeam: owner-only, but no cascade -/

/-- Team "T" with owner "A", member "B", one task "K", one completion by
"B" on "K". -/
def c7_db : TeamsDB :=
  { users := [uA, uB],
    teams := [{ id := "T", name := "delta", description := none, owner_id := "A" }],
    members := [{ id := 1, team_id := "T", user_id := "A", role := .owner },
                { id := 2, team_id := "T", user_id := "B", role := .member }],
    tasks := [{ id := "K", title := "task", description := none, team_id := "T",
                created_by := "A" }],
    completions := [{ id := 1, task_id := "K", user_id := "B" }] }

/-- `c7_db` after `delete_team`: only the team row is gone. -/
def c7_after : TeamsDB :=
  { users := [uA, uB],
    teams := [],
    members := [{ id := 1, team_id := "T", user_id := "A", role := .owner },
                { id := 2, team_id := "T", user_id := "B", role := .member }],
    tasks := [{ id := "K", title := "task", description := none, team_id := "T",
                created_by := "A" }],
    completions := [{ id := 1, task_id := "K", user_id := "B" }] }

/-- C7 counterexample.  The claim says a successful `deleteTeam` cascades
to memberships, tasks and completions, leaving no orphaned rows.  On a
concrete team with members, a task and a completion, the owner's delete
succeeds but removes only the team row: the membership, task and
completion rows survive and still reference the deleted team id "T". -/
theorem C7_delete_leaves_orphans :
    delete_team c7_db "T" "A" = .ok c7_after
    ∧ c7_after.members = c7_db.members
    ∧ c7_after.tasks = c7_db.tasks
    ∧ c7_after.completions = c7_db.completions
    ∧ c7_after.members.any (fun m => m.team_id == "T") = true
    ∧ c7_after.tasks.any (fun t => t.team_id == "T") = true := by
  decide

/-- C7 (amended): `delete_team` succeeds exactly when the caller's
membership role is `owner` (co-owners and plain members get the 403
"Only team owner can delete the team"); on success it deletes only the
team row — the members, tasks and completions components of the state
are returned unchanged, so rows referencing the team are orphaned rather
than cascaded. -/
theorem C7_delete_team_owner_only_no_cascade
    (db : TeamsDB) (team_id user_id : String) (tm : TeamRec) (rm : TeamMemberRec)
    (hteam : db.teams.find? (fun t => t.id == team_id) = some tm)
    (hmem : db.members.find?
      (fun m => m.team_id == team_id && m.user_id == user_id) = some rm) :
    (rm.role ≠ TeamRole.owner →
      delete_team db team_id user_id = .error .onlyOwnerCanDelete)
    ∧ (rm.role = TeamRole.owner →
      delete_team db team_id user_id =
        .ok { db with teams := db.teams.filter (fun t => t.id != team_id) }) := by
  have hred : delete_team db team_id user_id =
      (if rm.role ≠ TeamRole.owner then .error .onlyOwnerCanDelete
       else .ok { db with teams := db.teams.filter (fun t => t.id != team_id) }) := by
    unfold delete_team get_team
    rw [hteam, hmem]
  constructor
  · intro h
    rw [hred, if_pos h]
  · intro h
    rw [hred, if_neg (by simp [h])]

/-- C7 witness: on the concrete fixture the owner's delete succeeds (only
the team row removed) and the plain member's delete is rejected. -/
theorem C7_witness :
    delete_team c7_db "T" "A" = .ok c7_after
    ∧ delete_team c7_db "T" "B" = .error .onlyOwnerCanDelete := by
  constructor
  · have h := (C7_delete_team_owner_only_no_cascade c7_db "T" "A"
      { id := "T", name := "delta", description := none, owner_id := "A" }
      { id := 1, team_id := "T", user_id := "A", role := .owner }
      (by decide) (by decide)).2 rfl
    rw [h]
    decide
  · exact (C7_delete_team_owner_only_no_cascade c7_db "T" "B"
      { id := "T", name := "delta", description := none, owner_id := "A" }
      { id := 2, team_id := "T", user_id := "B", role := .member }
      (by decide) (by decide)).1 (by decide)

/-! ## C8 — fully-completed aggregate recomputed on read -/

/-- Team "T" with owner "A" and members "B", "C"; task "K" completed by
"A" and "B" but not by "C" (2 of 3). -/
def c8_db : TeamsDB :=
  { users := [uA, uB, uC, uD],
    teams := [{ id := "T", name := "epsilon", description := none, owner_id := "A" }],
    members := [{ id := 1, team_id := "T", user_id := "A", role := .owner },
                { id := 2, team_id := "T", user_id := "B", role := .member },
                { id := 3, team_id := "T", user_id := "C", role := .member }],
    tasks := [{ id := "K", title := "task", description := none, team_id := "T",
                created_by := "A" }],
    completions := [{ id := 1, task_id := "K", user_id := "A" },
                    { id := 2, task_id := "K", user_id := "B" }] }

/-- `c8_db` after the non-completing member "C" was removed. -/
def c8_db' : TeamsDB :=
  { users := [uA, uB, uC, uD],
    teams := [{ id := "T", name := "epsilon", description := none, owner_id := "A" }],
    members := [{ id := 1, team_id := "T", user_id := "A", role := .owner },
                { id := 2, team_id := "T", user_id := "B", role := .member }],
    tasks := [{ id := "K", title := "task", description := none, team_id := "T",
                created_by := "A" }],
    completions := [{ id := 1, task_id := "K", user_id := "A" },
                    { id := 2, task_id := "K", user_id := "B" }] }

/-- `c8_db'` after member "D" was invited. -/
def c8_db2 : TeamsDB :=
  { users := [uA, uB, uC, uD],
    teams := [{ id := "T", name := "epsilon", description := none, owner_id := "A" }],
    members := [{ id := 1, team_id := "T", user_id := "A", role := .owner },
                { id := 2, team_id := "T", user_id := "B", role := .member },
                { id := 9, team_id := "T", user_id := "D", role := .member }],
    tasks := [{ id := "K", title := "task", description := none, team_id := "T",
                created_by := "A" }],
    completions := [{ id := 1, task_id := "K", user_id := "A" },
                    { id := 2, task_id := "K", user_id := "B" }] }

/-- C8: the reported `is_fully_completed` is exactly
`completions_count == team_members_count`, recomputed from the returned
state on every call, with the task rows untouched (the aggregate is never
stored).  The closing conjuncts run the claim's flips on a concrete 2-of-3
state, reading via an idempotent re-set (`completed := true` by a user who
already completed, which writes nothing): removing the one non-completing
member flips the aggregate false → true with no write to task or
completion rows, and inviting a new member flips it back to false. -/
theorem C8_aggregate_recomputed_on_read
    (db : TeamsDB) (team_id task_id user_id : String)
    (tm : TeamRec) (rm : TeamMemberRec) (tk : TeamTaskRec)
    (hteam : db.teams.find? (fun t => t.id == team_id) = some tm)
    (hmem : db.members.find?
      (fun m => m.team_id == team_id && m.user_id == user_id) = some rm)
    (htask : db.tasks.find?
      (fun t => t.id == task_id && t.team_id == team_id) = some tk) :
    (∀ (completed : Bool) (cid : Nat), ∃ db',
      toggle_task_completion db team_id task_id user_id completed cid =
        .ok (db',
          { task_id := task_id, user_id := user_id, completed := completed,
            completions_count := completions_count db' task_id,
            team_members_count := get_team_members_count db' team_id,
            is_fully_completed :=
              completions_count db' task_id == get_team_members_count db' team_id })
      ∧ db'.tasks = db.tasks ∧ db'.teams = db.teams ∧ db'.members = db.members)
    ∧ toggle_task_completion c8_db "T" "K" "A" true 99 =
        .ok (c8_db,
          { task_id := "K", user_id := "A", completed := true,
            completions_count := 2, team_members_count := 3,
            is_fully_completed := false })
    ∧ remove_member c8_db "T" "A" "C" = .ok c8_db'
    ∧ c8_db'.tasks = c8_db.tasks
    ∧ c8_db'.completions = c8_db.completions
    ∧ toggle_task_completion c8_db' "T" "K" "A" true 99 =
        .ok (c8_db',
          { task_id := "K", user_id := "A", completed := true,
            completions_count := 2, team_members_count := 2,
            is_fully_completed := true })
    ∧ invite_user c8_db' "T" "A" "D" 9 = .ok c8_db2
    ∧ toggle_task_completion c8_db2 "T" "K" "A" true 99 =
        .ok (c8_db2,
          { task_id := "K", user_id := "A", completed := true,
            completions_count := 2, team_members_count := 3,
            is_fully_completed := false }) := by
  have hg : get_team db team_id user_id = .ok tm := by
    unfold get_team
    rw [hteam, hmem]
  refine ⟨?_, by decide, by decide, by decide, by decide, by decide, by decide, by decide⟩
  intro completed cid
  unfold toggle_task_completion
  rw [hg]
  dsimp only
  rw [htask]
  dsimp only
  refine ⟨_, rfl, ?_, ?_, ?_⟩ <;>
    · dsimp only
      split
      · split <;> rfl
      · split <;> rfl

/-- C8 witness: the general read form instantiated on the 2-of-3 fixture
with a no-op completion re-set. -/
theorem C8_witness :
    ∃ db', toggle_task_completion c8_db "T" "K" "A" true 99 =
      .ok (db',
        { task_id := "K", user_id := "A", completed := true,
          completions_count := completions_count db' "K",
          team_members_count := get_team_members_count db' "T",
          is_fully_completed :=
            completions_count db' "K" == get_team_members_count db' "T" })
      ∧ db'.tasks = c8_db.tasks ∧ db'.teams = c8_db.teams
      ∧ db'.members = c8_db.members := by
  exact (C8_aggregate_recomputed_on_read c8_db "T" "K" "A"
    { id := "T", name := "epsilon", description := none, owner_id := "A" }
    { id := 1, team_id := "T", user_id := "A", role := .owner }
    { id := "K", title := "task", description := none, team_id := "T", created_by := "A" }
    (by decide) (by decide) (by decide)).1 true 99

/-! ## C9 — removeMember deletes only the membership row -/

/-- Team "T": owner "A" (no completion), members "B" and "C" who both
completed task "K". -/
def c9_db : TeamsDB :=
  { users := [uA, uB, uC],
    teams := [{ id := "T", name := "zeta", description := none, owner_id := "A" }],
    members := [{ id := 1, team_id := "T", user_id := "A", role := .owner },
                { id := 2, team_id := "T", user_id := "B", role := .member },
                { id := 3, team_id := "T", user_id := "C", role := .member }],
    tasks := [{ id := "K", title := "task", description := none, team_id := "T",
                created_by := "A" }],
    completions := [{ id := 1, task_id := "K", user_id := "B" },
                    { id := 2, task_id := "K", user_id := "C" }] }

/-- `c9_db` after "A" removed "C": the membership row is gone, "C"'s
completion row is not. -/
def c9_db' : TeamsDB :=
  { users := [uA, uB, uC],
    teams := [{ id := "T", name := "zeta", description := none, owner_id := "A" }],
    members := [{ id := 1, team_id := "T", user_id := "A", role := .owner },
                { id := 2, team_id := "T", user_id := "B", role := .member }],
    tasks := [{ id := "K", title := "task", description := none, team_id := "T",
                created_by := "A" }],
    completions := [{ id := 1, task_id := "K", user_id := "B" },
                    { id := 2, task_id := "K", user_id := "C" }] }

/-- C9: a successful owner-removes-member call deletes exactly the
target's membership row: the users, teams, tasks and completions
components are returned unchanged, so every completion row of the removed
user survives and still feeds `completions_count`.  The closing conjuncts
show the consequence on `c9_db`: after "C" is removed, a read reports the
task fully completed (2 completions vs 2 members) even though "A" never
completed it — one counted completion belongs to the departed "C". -/
theorem C9_remove_member_keeps_completions
    (db : TeamsDB) (team_id remover_id member_id : String)
    (tm : TeamRec) (rm mm : TeamMemberRec)
    (hteam : db.teams.find? (fun t => t.id == team_id) = some tm)
    (hrem : db.members.find?
      (fun m => m.team_id == team_id && m.user_id == remover_id) = some rm)
    (htar : db.members.find?
      (fun m => m.team_id == team_id && m.user_id == member_id) = some mm)
    (hne : remover_id ≠ member_id) (hrole : rm.role = TeamRole.owner)
    (hmm : mm.role ≠ TeamRole.owner) :
    (remove_member db team_id remover_id member_id =
      .ok { db with members := db.members.filter (fun m => m.id != mm.id) })
    ∧ (∀ t, completions_count
        { db with members := db.members.filter (fun m => m.id != mm.id) } t =
          completions_count db t)
    ∧ remove_member c9_db "T" "A" "C" = .ok c9_db'
    ∧ c9_db'.completions = c9_db.completions
    ∧ toggle_task_completion c9_db' "T" "K" "B" true 99 =
        .ok (c9_db',
          { task_id := "K", user_id := "B", completed := true,
            completions_count := 2, team_members_count := 2,
            is_fully_completed := true })
    ∧ c9_db'.members.any (fun m => m.user_id == "C") = false
    ∧ c9_db'.completions.any (fun c => c.user_id == "C") = true := by
  refine ⟨?_, fun t => rfl, by decide, by decide, by decide, by decide, by decide⟩
  unfold remove_member get_team
  rw [hteam, hrem, htar]
  dsimp only
  rw [if_neg hne, if_pos hrole, if_neg hmm]

/-- C9 witness: the frame property instantiated on the fixture. -/
theorem C9_witness :
    remove_member c9_db "T" "A" "C" =
      .ok { c9_db with members := c9_db.members.filter (fun m => m.id != (3 : Nat)) } := by
  have h := (C9_remove_member_keeps_completions c9_db "T" "A" "C"
    { id := "T", name := "zeta", description := none, owner_id := "A" }
    { id := 1, team_id := "T", user_id := "A", role := .owner }
    { id := 3, team_id := "T", user_id := "C", role := .member }
    (by decide) (by decide) (by decide) (by decide) rfl (by decide)).1
  rw [h]

/-! ## C10 — updateMemberRole overwrites unconditionally -/

/-- `c6_db` after the owner "A" demoted themselves to plain member: the
team now has zero owner-role rows. -/
def c10_demoted : TeamsDB :=
  { users := [uA, uB],
    teams := [{ id := "T", name := "gamma", description := none, owner_id := "A" }],
    members := [{ id := 1, team_id := "T", user_id := "A", role := .member },
                { id := 2, team_id := "T", user_id := "B", role := .member }],
    tasks := [], completions := [] }

/-- C10: when the caller's membership role is `owner` and the target has
a membership row (and exists as a user, which the response lookup
requires), the target's role is overwritten with `new_role`
unconditionally — no check against promoting a second `owner` or against
the owner demoting themselves.  The closing conjuncts exhibit both
degenerate outcomes on the fixture: promoting "B" yields two owner-role
rows, and the owner demoting themselves yields zero. -/
theorem C10_update_role_unconditional_overwrite
    (db : TeamsDB) (team_id owner_id member_id : String) (new_role : TeamRole)
    (tm : TeamRec) (om mm : TeamMemberRec) (usr : UserRec)
    (hteam : db.teams.find? (fun t => t.id == team_id) = some tm)
    (hown : db.members.find?
      (fun m => m.team_id == team_id && m.user_id == owner_id) = some om)
    (hrole : om.role = TeamRole.owner)
    (htar : db.members.find?
      (fun m => m.team_id == team_id && m.user_id == member_id) = some mm)
    (huser : db.users.find? (fun u => u.id == member_id) = some usr) :
    (update_member_role db team_id owner_id member_id new_role =
      .ok { db with
            members := db.members.map
              (fun m => if m.id = mm.id then { mm with role := new_role } else m) })
    ∧ update_member_role c6_db "T" "A" "B" TeamRole.owner = .ok c6_db2
    ∧ (c6_db2.members.filter
        (fun m => m.team_id == "T" && m.role == TeamRole.owner)).length = 2
    ∧ update_member_role c6_db "T" "A" "A" TeamRole.member = .ok c10_demoted
    ∧ (c10_demoted.members.filter
        (fun m => m.team_id == "T" && m.role == TeamRole.owner)).length = 0 := by
  refine ⟨?_, by decide, by decide, by decide, by decide⟩
  unfold update_member_role get_team
  rw [hteam, hown, htar, huser]
  dsimp only
  rw [if_neg (by simp [hrole])]

/-- C10 witness: the overwrite instantiated on the fixture, promoting a
second member to `owner`. -/
theorem C10_witness :
    update_member_role c6_db "T" "A" "B" TeamRole.owner =
      .ok { c6_db with
            members := c6_db.members.map
              (fun m => if m.id = (2 : Nat)
                then { id := 2, team_id := "T", user_id := "B", role := TeamRole.owner }
                else m) } := by
  have h := (C10_update_role_unconditional_overwrite c6_db "T" "A" "B" TeamRole.owner
    { id := "T", name := "gamma", description := none, owner_id := "A" }
    { id := 1, team_id := "T", user_id := "A", role := .owner }
    { id := 2, team_id := "T", user_id := "B", role := .member }
    uB (by decide) (by decide) rfl (by decide) (by decide)).1
  rw [h]

end ToDo
